import Mathlib

/-!
Verification of the STL mesh codec (itkSTLMeshIO) against its specification.

The development shallowly embeds the reader and writer of
src/src/itkSTLMeshIO.cxx and src/include/itkSTLMeshIO.h:

* streams are byte lists (bytes are naturals; `getline` splits at the
  newline byte 10, token extraction skips C whitespace);
* `float` point coordinates are modelled as rationals (exact on every
  concrete value used below; IEEE rounding is outside the embedding);
* binary serialization is modelled at the granularity of the C++
  `write` calls, each unit carrying its byte size, so byte counts are
  exact while float bit patterns stay abstract;
* the `itkExceptionMacro` aborts are modelled as error values carrying
  exactly the data interpolated into the exception message.
-/

/-- UTF-8 independent view of a string literal as a list of byte values;
all literals used here are plain ASCII. -/
def strBytes (s : String) : List Nat :=
  s.toList.map Char.toNat

/-- Substring containment test, the model of `std::string::find(pat) != npos`. -/
def containsSub (pat : List Nat) : List Nat → Bool
  | [] => pat.isEmpty
  | c :: rest => pat.isPrefixOf (c :: rest) || containsSub pat rest

/-- Model of `std::getline(stream, line, chr10)`: the first line without its
terminator, and the remaining stream after the terminator. -/
def getline (s : List Nat) : List Nat × List Nat :=
  (s.takeWhile (fun b => b ≠ 10), (s.dropWhile (fun b => b ≠ 10)).drop 1)

/-- C whitespace bytes recognized by `operator>>` token extraction. -/
def isSpaceByte (b : Nat) : Bool :=
  b == 32 || b == 9 || b == 10 || b == 11 || b == 12 || b == 13

/-- Model of one `operator>>` string extraction: skip whitespace, take the
maximal run of non-whitespace bytes; returns the token and the rest. -/
def readToken (s : List Nat) : List Nat × List Nat :=
  let s1 := s.dropWhile (fun b => isSpaceByte b)
  (s1.takeWhile (fun b => !isSpaceByte b), s1.dropWhile (fun b => !isSpaceByte b))

/-- Little-endian value of a byte list. -/
def leVal : List Nat → Nat
  | [] => 0
  | b :: rest => b + 256 * leVal rest

/-- Reinterpret a 32-bit value as the C++ `int32_t` it denotes. -/
def toInt32 (n : Nat) : Int :=
  if n % 2 ^ 32 < 2 ^ 31 then ((n % 2 ^ 32 : Nat) : Int)
  else ((n % 2 ^ 32 : Nat) : Int) - 2 ^ 32

/-- C++ conversion of a signed value to the unsigned 64-bit `IdentifierType`. -/
def toUInt64Wrap (i : Int) : Nat :=
  (i % 2 ^ 64).toNat

/-- The `MeshIOBase` file-type setting (`ASCII`, `BINARY`, or the unset value). -/
inductive FileTypeV
  | ASCII
  | BINARY
  | TYPENOTAPPLICABLE
deriving DecidableEq

/-- A 3-component value; `PointType`, `VectorType` and `NormalType` of the
source are all 3-vectors of `float`, modelled with rational components. -/
structure PointType where
  x : ℚ
  y : ℚ
  z : ℚ
deriving DecidableEq

/-- Vectors share the representation of points (itk `Vector<float,3>`). -/
abbrev VectorType := PointType

/-- Normals share the representation of points (itk `CovariantVector<float,3>`). -/
abbrev NormalType := PointType

/-- Componentwise difference, the `operator-` of `itk::Point`. -/
def pointSub (p q : PointType) : VectorType :=
  ⟨p.x - q.x, p.y - q.y, p.z - q.z⟩

/-- Model of `itk::CrossProduct(out, a, b)`: the standard cross product a × b. -/
def crossProductV (a b : VectorType) : NormalType :=
  ⟨a.y * b.z - a.z * b.y, a.z * b.x - a.x * b.z, a.x * b.y - a.y * b.x⟩

/-- The normal computed by `WriteCells` (cxx lines 482-485): edge vectors
`v10 = p0 - p1` and `v12 = p2 - p1`, then `CrossProduct(normal, v12, v10)`. -/
def computeNormal (p0 p1 p2 : PointType) : NormalType :=
  let v10 := pointSub p0 p1
  let v12 := pointSub p2 p1
  crossProductV v12 v10

/-- Errors raised via `itkExceptionMacro`, carrying exactly the data the
corresponding exception message interpolates. -/
inductive STLError
  | openFailed
  | missedKeyword (expected : List Nat) (lineNumber : Nat) (found : List Nat)
  | missedVertex (lineNumber : Nat)
  | unsupportedDimension
  | unknownComponentType
deriving DecidableEq

/-- The offending-line text carried by a parse error, when the exception
message includes one (`ReadStringFromAscii` prints "found: " plus the line;
the vertex message at cxx line 628 prints only the line number). -/
def reportedLineText : STLError → Option (List Nat)
  | .missedKeyword _ _ found => some found
  | _ => none

/-- Mutable reader state of the ASCII path: the open stream, the buffered
`m_InputLine`, and the `m_InputLineNumber` counter. -/
structure AsciiState where
  stream : List Nat
  inputLine : List Nat
  lineNumber : Nat
deriving DecidableEq

/-- Model of `CheckStringFromAscii` (cxx lines 203-216): always reads a fresh
line into `m_InputLine`; increments the line counter only on a hit. -/
def checkStringFromAscii (expected : List Nat) (st : AsciiState) : Bool × AsciiState :=
  let g := getline st.stream
  if containsSub expected g.1 then
    (true, ⟨g.2, g.1, st.lineNumber + 1⟩)
  else
    (false, ⟨g.2, g.1, st.lineNumber⟩)

/-- Model of `ReadStringFromAscii` (cxx lines 181-200): use the buffered line
if any, else read one; a miss raises the exception carrying the expected
keyword, `m_InputLineNumber` and the offending line; a hit clears the buffer
and increments the counter. -/
def readStringFromAscii (expected : List Nat) (st : AsciiState) :
    Except STLError AsciiState :=
  let lg := if st.inputLine.isEmpty then
      (let g := getline st.stream; (g.1, g.2))
    else (st.inputLine, st.stream)
  if containsSub expected lg.1 then
    .ok ⟨lg.2, [], st.lineNumber + 1⟩
  else
    .error (.missedKeyword expected st.lineNumber lg.1)

/-- Model of `ReadPointAsAscii` (cxx lines 619-640): extract one token; if it
lacks "vertex" raise the exception that carries only the line number; else
extract the three coordinate tokens (`stream >> point`), swallow the rest of
the line, and increment the counter. Coordinate values feed only the point
set, which is modelled separately. -/
def readPointAsAscii (st : AsciiState) : Except STLError AsciiState :=
  let t := readToken st.stream
  if containsSub (strBytes "vertex") t.1 then
    let s2 := (readToken t.2).2
    let s3 := (readToken s2).2
    let s4 := (readToken s3).2
    let g := getline s4
    .ok ⟨g.2, st.inputLine, st.lineNumber + 1⟩
  else
    .error (.missedVertex st.lineNumber)

/-- Body of the facet loop of `ReadMeshInternalFromAscii` (cxx lines 170-176). -/
def readFacetBlock (st : AsciiState) : Except STLError AsciiState := do
  let st1 ← readStringFromAscii (strBytes "facet normal") st
  let st2 ← readStringFromAscii (strBytes "outer loop") st1
  let st3 ← readPointAsAscii st2
  let st4 ← readPointAsAscii st3
  let st5 ← readPointAsAscii st4
  let st6 ← readStringFromAscii (strBytes "endloop") st5
  readStringFromAscii (strBytes "endfacet") st6

/-- The `while(!CheckStringFromAscii("endsolid"))` loop of
`ReadMeshInternalFromAscii`, with explicit fuel (`none` = fuel exhausted;
every theorem below supplies ample fuel). -/
def readFacetLoop : Nat → AsciiState → Option (Except STLError AsciiState)
  | 0, _ => none
  | fuel + 1, st =>
    let c := checkStringFromAscii (strBytes "endsolid") st
    if c.1 then
      some (.ok c.2)
    else
      match readFacetBlock c.2 with
      | .error e => some (.error e)
      | .ok st2 => readFacetLoop fuel st2

/-- Observable result of `ReadMeshInternalFromBinary` (cxx lines 219-264):
the 80 header bytes it consumed, the 4 count bytes, the `int32_t` triangle
count, the value stored by `SetNumberOfCells`, and the stream left after the
50-byte records. The record loop is modelled for nonnegative counts (a
negative `int32_t` makes the C++ loop run away). -/
structure BinaryReadResult where
  header : List Nat
  countBytes : List Nat
  numberOfTriangles : Int
  numberOfCells : Nat
  rest : List Nat
deriving DecidableEq

/-- Model of `ReadMeshInternalFromBinary`, consuming from wherever the
stream currently stands. -/
def readMeshInternalFromBinary (s : List Nat) : BinaryReadResult :=
  let header := s.take 80
  let s1 := s.drop 80
  let countBytes := s1.take 4
  let n := toInt32 (leVal countBytes)
  let s2 := s1.drop 4
  ⟨header, countBytes, n, toUInt64Wrap n, s2.drop (50 * n.toNat)⟩

/-- Outcome of `ReadMeshInformation`: the failed-open abort, the ASCII parse
result, or the binary parse result. -/
inductive ReadInfo
  | openFail
  | asciiInfo (r : Option (Except STLError AsciiState))
  | binaryInfo (r : BinaryReadResult)

/-- Result of `ReadMeshInformation`: the file type it settled on plus the
parse outcome. -/
structure ReadInfoResult where
  fileType : FileTypeV
  info : ReadInfo

/-- Model of `ReadMeshInformation` (cxx lines 75-142).  `win32` selects the
`_WIN32` close-and-reopen branches (reopening puts the stream back at offset
0); `ft0` is the incoming `GetFileType()` value and `openOk` whether opening
the file succeeds.  Note that outside the `win32` reopen the stream is NOT
repositioned after the first-line `getline`. -/
def readMeshInformation (win32 : Bool) (ft0 : FileTypeV) (openOk : Bool)
    (file : List Nat) : ReadInfoResult :=
  if ft0 = FileTypeV.TYPENOTAPPLICABLE ∨ openOk = false then
    ⟨ft0, .openFail⟩
  else
    let g := getline file
    if containsSub (strBytes "solid") g.1 then
      let stream := if win32 ∧ ft0 ≠ FileTypeV.ASCII then file else g.2
      ⟨.ASCII, .asciiInfo (readFacetLoop (file.length + 1) ⟨stream, [], 2⟩)⟩
    else
      let stream := if win32 ∧ ft0 ≠ FileTypeV.BINARY then file else g.2
      ⟨.BINARY, .binaryInfo (readMeshInternalFromBinary stream)⟩

/-- The recorded cell count of a binary read outcome. -/
def binaryCellsOf (r : ReadInfoResult) : Option Nat :=
  match r.info with
  | .binaryInfo b => some b.numberOfCells
  | _ => none

/-- The 80 header bytes a binary read outcome consumed. -/
def binaryHeaderOf (r : ReadInfoResult) : Option (List Nat) :=
  match r.info with
  | .binaryInfo b => some b.header
  | _ => none

/-- The parse error of an ASCII read outcome, when it failed. -/
def asciiErrorOf (r : ReadInfoResult) : Option STLError :=
  match r.info with
  | .asciiInfo (some (.error e)) => some e
  | _ => none

/-- The final reader state of an ASCII read outcome, when it succeeded. -/
def asciiStateOf (r : ReadInfoResult) : Option AsciiState :=
  match r.info with
  | .asciiInfo (some (.ok st)) => some st
  | _ => none

/-- One unit emitted by a C++ `stream.write` or character output, tagged
with the value written; its byte size is that of the C++ write call. -/
inductive OutUnit
  | f32 (value : ℚ)
  | i32 (value : Int)
  | i16 (value : Int)
  | byteU (b : Nat)
deriving DecidableEq

/-- Byte size of one output unit (`sizeof` of the written C++ value). -/
def OutUnit.size : OutUnit → Nat
  | .f32 _ => 4
  | .i32 _ => 4
  | .i16 _ => 2
  | .byteU _ => 1

/-- Total byte size of an output sequence. -/
def outSize (us : List OutUnit) : Nat :=
  (us.map OutUnit.size).sum

/-- Model of `setfill(chr32) << setw(80)`: left-pad with spaces to width 80
(no truncation of longer strings, matching `setw`). -/
def padTo80 (s : List Nat) : List Nat :=
  List.replicate (80 - s.length) 32 ++ s

/-- Model of `WriteMeshInformation` (cxx lines 319-354): ASCII emits the
line "solid ascii", BINARY emits the space-padded 80-byte header string. -/
def writeMeshInformation : FileTypeV → List OutUnit
  | .ASCII => (strBytes "solid ascii" ++ [10]).map OutUnit.byteU
  | .BINARY => (padTo80 (strBytes "binary STL generated from ITK")).map OutUnit.byteU
  | .TYPENOTAPPLICABLE => []

/-- The `TRIANGLE_CELL` value of `MeshIOBase::CellGeometryType`. -/
def TRIANGLE_CELL : Nat := 2

/-- The `POLYGON_CELL` value of `MeshIOBase::CellGeometryType`. -/
def POLYGON_CELL : Nat := 4

/-- Counting pass of `WriteCells` (cxx lines 444-463): walk
`numberOfPolygons` cells of the flat buffer, counting those with
`cellType == TRIANGLE_CELL || (cellType == POLYGON_CELL && nVerts == 3)`,
always advancing past the encoded vertex count. -/
def countTriangles : Nat → List Nat → Int
  | 0, _ => 0
  | n + 1, buf =>
    let cellType := buf.headD 0
    let rest1 := buf.drop 1
    let nVerts := rest1.headD 0
    let rest2 := rest1.drop 1
    (if cellType == TRIANGLE_CELL || (cellType == POLYGON_CELL && nVerts == 3)
      then 1 else 0) + countTriangles n (rest2.drop nVerts)

/-- One facet as emitted by the writer: the recomputed normal and the three
vertex points, in emission order. -/
structure FacetRecord where
  normal : NormalType
  p0 : PointType
  p1 : PointType
  p2 : PointType
deriving DecidableEq

/-- Emission pass of `WriteCells` (cxx lines 468-524), shared by the ASCII
and BINARY branches: for each qualifying cell read exactly three point ids,
look the points up in `m_Points`, and record the facet with its recomputed
normal; any other cell is skipped by advancing past its encoded vertex
count.  Out-of-buffer reads (C++ undefined behaviour) default to 0 and the
origin; the theorems below only use well-formed buffers. -/
def emitFacets (points : List PointType) : Nat → List Nat → List FacetRecord
  | 0, _ => []
  | n + 1, buf =>
    let cellType := buf.headD 0
    let rest1 := buf.drop 1
    let nVerts := rest1.headD 0
    let rest2 := rest1.drop 1
    if cellType == TRIANGLE_CELL || (cellType == POLYGON_CELL && nVerts == 3) then
      let p0 := points.getD (rest2.headD 0) ⟨0, 0, 0⟩
      let p1 := points.getD ((rest2.drop 1).headD 0) ⟨0, 0, 0⟩
      let p2 := points.getD ((rest2.drop 2).headD 0) ⟨0, 0, 0⟩
      ⟨computeNormal p0 p1 p2, p0, p1, p2⟩ :: emitFacets points n (rest2.drop 3)
    else
      emitFacets points n (rest2.drop nVerts)

/-- Binary serialization of one facet (cxx lines 513-517): normal, three
points (3 floats each), and the zero 16-bit attribute field. -/
def facetBinaryUnits (r : FacetRecord) : List OutUnit :=
  [.f32 r.normal.x, .f32 r.normal.y, .f32 r.normal.z,
   .f32 r.p0.x, .f32 r.p0.y, .f32 r.p0.z,
   .f32 r.p1.x, .f32 r.p1.y, .f32 r.p1.z,
   .f32 r.p2.x, .f32 r.p2.y, .f32 r.p2.z,
   .i16 0]

/-- BINARY branch of `WriteCells`: the 4-byte triangle count followed by the
serialized facet records. -/
def writeCellsBinaryUnits (points : List PointType) (numberOfPolygons : Nat)
    (buf : List Nat) : List OutUnit :=
  .i32 (countTriangles numberOfPolygons buf) ::
    (emitFacets points numberOfPolygons buf).flatMap facetBinaryUnits

/-- One element of the ASCII writer output: a facet text block (seven lines,
from "facet normal" to "endfacet") or a literal text line. -/
inductive AsciiOut
  | facetBlock (r : FacetRecord)
  | textLine (s : List Nat)
deriving DecidableEq

/-- ASCII branch of `WriteCells` (cxx lines 487-500 and 526-529): one facet
block per qualifying cell, then the closing "endsolid" line. -/
def writeCellsAsciiOut (points : List PointType) (numberOfPolygons : Nat)
    (buf : List Nat) : List AsciiOut :=
  (emitFacets points numberOfPolygons buf).map AsciiOut.facetBlock
    ++ [.textLine (strBytes "endsolid")]

/-- Writer-side mutable state: the bytes already written to the output
stream and the `m_Points` vector. -/
structure WriterState where
  output : List OutUnit
  points : List PointType
deriving DecidableEq

/-- The point-copy loop of `WritePointsTyped` (header lines 179-185): group
the flat coordinate buffer into `numberOfPoints` triples (the narrowing
`static_cast<float>` is the identity on the rational model). -/
def chunkPoints : Nat → List ℚ → List PointType
  | 0, _ => []
  | n + 1, buf =>
    ⟨buf.headD 0, (buf.drop 1).headD 0, (buf.drop 2).headD 0⟩ ::
      chunkPoints n (buf.drop 3)

/-- Model of `WritePointsTyped` (header lines 159-186): a declared point
dimension other than 3 raises the "STL only supports 3D points" exception
first, before the state (output bytes, `m_Points`) is touched; otherwise
`m_Points` is rebuilt from the buffer and nothing is written to the stream. -/
def writePointsTyped (pointDimension : Nat) (numberOfPoints : Nat)
    (buffer : List ℚ) (st : WriterState) : Option STLError × WriterState :=
  if pointDimension ≠ 3 then
    (some .unsupportedDimension, st)
  else
    (none, ⟨st.output, chunkPoints numberOfPoints buffer⟩)

/-- Operations `ReadPoints` and `ReadCells` perform on the input stream. -/
inductive StreamOp
  | openStream (binary : Bool)
  | closeStream
deriving DecidableEq

/-- Result of `ReadPoints`/`ReadCells`: the abort (if any), the
caller-supplied buffer as left behind, and the stream operations performed. -/
structure ReadBufResult where
  err : Option STLError
  buffer : List ℚ
  ops : List StreamOp
deriving DecidableEq

/-- Model of `ReadPoints` (cxx lines 267-290): open the input stream
according to the file type, fail if it did not open, close it; the buffer
argument is never written to. -/
def readPoints (ft : FileTypeV) (openOk : Bool) (buffer : List ℚ) : ReadBufResult :=
  match ft with
  | .TYPENOTAPPLICABLE => ⟨some .openFailed, buffer, []⟩
  | .ASCII =>
    if openOk then ⟨none, buffer, [.openStream false, .closeStream]⟩
    else ⟨some .openFailed, buffer, [.openStream false]⟩
  | .BINARY =>
    if openOk then ⟨none, buffer, [.openStream true, .closeStream]⟩
    else ⟨some .openFailed, buffer, [.openStream true]⟩

/-- Model of `ReadCells` (cxx lines 292-316), identical to `ReadPoints` up
to an unused local variable. -/
def readCells (ft : FileTypeV) (openOk : Bool) (buffer : List ℚ) : ReadBufResult :=
  match ft with
  | .TYPENOTAPPLICABLE => ⟨some .openFailed, buffer, []⟩
  | .ASCII =>
    if openOk then ⟨none, buffer, [.openStream false, .closeStream]⟩
    else ⟨some .openFailed, buffer, [.openStream false]⟩
  | .BINARY =>
    if openOk then ⟨none, buffer, [.openStream true, .closeStream]⟩
    else ⟨some .openFailed, buffer, [.openStream true]⟩

/-- Model of `itksys::SystemTools::GetFilenameName`: the part after the last
path separator. -/
def getFilenameName (s : List Nat) : List Nat :=
  (s.reverse.takeWhile (fun b => b ≠ 47)).reverse

/-- Model of `itksys::SystemTools::GetFilenameLastExtension`: everything
after and including the last dot of the file name component, or empty. -/
def getFilenameLastExtension (s : List Nat) : List Nat :=
  let nm := getFilenameName s
  let afterDot := nm.reverse.takeWhile (fun b => b ≠ 46)
  if afterDot.length = nm.length then [] else 46 :: afterDot.reverse

/-- Model of `CanReadFile` (cxx lines 36-53): require the file to exist
(`fileExists` abstracts `SystemTools::FileExists`), then require the last
extension to be ".stl" or ".STL". -/
def canReadFile (fileExists : List Nat → Bool) (fileName : List Nat) : Bool :=
  if !fileExists fileName then
    false
  else if getFilenameLastExtension fileName ≠ strBytes ".stl"
      ∧ getFilenameLastExtension fileName ≠ strBytes ".STL" then
    false
  else
    true

/-- Model of `CanWriteFile` (cxx lines 55-67): the extension test alone. -/
def canWriteFile (fileName : List Nat) : Bool :=
  if getFilenameLastExtension fileName ≠ strBytes ".stl"
      ∧ getFilenameLastExtension fileName ≠ strBytes ".STL" then
    false
  else
    true

/-- The `PointCompare` lexicographic order of the header (lines 251-270):
compare x, then y, then z. -/
def pointLess (p q : PointType) : Bool :=
  if p.x ≠ q.x then decide (p.x < q.x)
  else if p.y ≠ q.y then decide (p.y < q.y)
  else decide (p.z < q.z)

/-- Equivalence induced by `PointCompare`: the key-equality notion of the
ordered containers the source keys by it (the `m_PointsSet` of the staged
cxx, and the `m_PointsMap` the staged header declares). -/
def pointEquiv (p q : PointType) : Bool :=
  !pointLess p q && !pointLess q p

/-- Model of the staged `InsertPointIntoSet` (cxx lines 643-670): the
routine first builds a byte-array hash of the three float coordinates that
is never read afterwards (dead code, no observable effect), then performs
`m_PointsSet.insert(point)` — a `std::set` insert keyed by `PointCompare`,
a no-op when an equivalent key is already present.  The function returns
nothing: no point id is assigned, returned, or recorded, and the id
machinery declared in the staged header (`m_PointsMap`, `m_LatestPointId`)
is left unused.  The model tracks the set's membership contents (in arrival
order; the tree's internal ordering is representation detail). -/
def insertPointIntoSet (pointsSet : List PointType) (point : PointType) :
    List PointType :=
  if pointsSet.any (fun q => pointEquiv q point) then pointsSet
  else pointsSet ++ [point]

/-- Run a sequence of `InsertPointIntoSet` calls on an initially empty set;
the set contents are the only observable outcome. -/
def runSetInserts (ps : List PointType) : List PointType :=
  ps.foldl insertPointIntoSet []

/-- A generic cell of the caller-supplied cell buffer: the
`CellGeometryType` tag and the list of point ids. -/
structure CellEntry where
  ctype : Nat
  verts : List Nat
deriving DecidableEq

/-- Flat `(cellType, vertexCount, indices…)` encoding of a cell list, the
layout of the buffer handed to `WriteCells`. -/
def flattenCells (cs : List CellEntry) : List Nat :=
  cs.flatMap (fun c => c.ctype :: c.verts.length :: c.verts)

/-- Specification-side qualifying-triangle predicate: tagged as a triangle
cell, or a polygon cell with exactly 3 vertices. -/
def qualifies (c : CellEntry) : Bool :=
  c.ctype == TRIANGLE_CELL || (c.ctype == POLYGON_CELL && c.verts.length == 3)

/-- Specification-side facet record of one qualifying cell: the three points
looked up in the point vector and the recomputed normal. -/
def recordOf (points : List PointType) (c : CellEntry) : FacetRecord :=
  let p0 := points.getD (c.verts.getD 0 0) ⟨0, 0, 0⟩
  let p1 := points.getD (c.verts.getD 1 0) ⟨0, 0, 0⟩
  let p2 := points.getD (c.verts.getD 2 0) ⟨0, 0, 0⟩
  ⟨computeNormal p0 p1 p2, p0, p1, p2⟩


theorem pointLess_ff (p q : PointType) (h1 : pointLess p q = false)
    (h2 : pointLess q p = false) : p = q := by
  obtain ⟨a, b, c⟩ := p
  obtain ⟨d, e, f⟩ := q
  rcases lt_trichotomy a d with h | h | h
  · simp [pointLess, ne_of_lt h, h] at h1
  · subst h
    rcases lt_trichotomy b e with h | h | h
    · simp [pointLess, ne_of_lt h, h] at h1
    · subst h
      rcases lt_trichotomy c f with h | h | h
      · simp [pointLess, h] at h1
      · subst h; rfl
      · simp [pointLess, h] at h2
    · simp [pointLess, ne_of_lt h, h] at h2
  · simp [pointLess, ne_of_lt h, h] at h2

theorem pointEquiv_iff (p q : PointType) : pointEquiv p q = true ↔ p = q := by
  constructor
  · intro h
    have h12 := (Bool.and_eq_true _ _).mp h
    refine pointLess_ff p q ?_ ?_
    · simpa using h12.1
    · simpa using h12.2
  · rintro rfl
    simp [pointEquiv, pointLess, lt_irrefl]

theorem flattenCells_cons (c : CellEntry) (rest : List CellEntry) :
    flattenCells (c :: rest) =
      c.ctype :: c.verts.length :: (c.verts ++ flattenCells rest) := by
  simp [flattenCells]

theorem countTriangles_flatten :
    ∀ (cells : List CellEntry),
      countTriangles cells.length (flattenCells cells) =
        ((cells.filter qualifies).length : Int) := by
  intro cells
  induction cells with
  | nil => simp [countTriangles, flattenCells]
  | cons c rest ih =>
    rw [flattenCells_cons]
    simp only [List.length_cons, countTriangles, List.headD_cons,
      List.drop_succ_cons, List.drop_zero]
    rw [List.drop_left, ih]
    by_cases h : (c.ctype == TRIANGLE_CELL
        || (c.ctype == POLYGON_CELL && c.verts.length == 3)) = true
    · rw [if_pos h, List.filter_cons_of_pos (show qualifies c = true from h),
        List.length_cons]
      push_cast
      ring
    · rw [if_neg h, List.filter_cons_of_neg (show ¬qualifies c = true from h)]
      simp

theorem emitFacets_flatten (points : List PointType) :
    ∀ (cells : List CellEntry),
      (∀ c ∈ cells, c.ctype = TRIANGLE_CELL → c.verts.length = 3) →
      emitFacets points cells.length (flattenCells cells) =
        (cells.filter qualifies).map (recordOf points) := by
  intro cells
  induction cells with
  | nil => intro _; simp [emitFacets, flattenCells]
  | cons c rest ih =>
    intro hwf
    have hrest : ∀ x ∈ rest, x.ctype = TRIANGLE_CELL → x.verts.length = 3 :=
      fun x hx => hwf x (List.mem_cons_of_mem c hx)
    rw [flattenCells_cons]
    simp only [List.length_cons, emitFacets, List.headD_cons, List.drop_succ_cons,
      List.drop_zero]
    by_cases h : (c.ctype == TRIANGLE_CELL
        || (c.ctype == POLYGON_CELL && c.verts.length == 3)) = true
    · have h3 : c.verts.length = 3 := by
        have h2 : c.ctype = TRIANGLE_CELL
            ∨ (c.ctype = POLYGON_CELL ∧ c.verts.length = 3) := by
          simpa using h
        rcases h2 with ht | hp
        · exact hwf c (List.mem_cons_self c rest) ht
        · exact hp.2
      obtain ⟨v0, v1, v2, hv⟩ := List.length_eq_three.mp h3
      rw [if_pos h, List.filter_cons_of_pos (show qualifies c = true from h),
        List.map_cons, hv]
      simp only [List.cons_append, List.nil_append, List.headD_cons,
        List.drop_succ_cons, List.drop_zero]
      rw [ih hrest]
      congr 1
      simp [recordOf, hv]
    · rw [if_neg h, List.filter_cons_of_neg (show ¬qualifies c = true from h),
        List.drop_left]
      exact ih hrest

theorem outSize_cons (u : OutUnit) (us : List OutUnit) :
    outSize (u :: us) = u.size + outSize us := by
  simp [outSize]

theorem outSize_facetBinary :
    ∀ (rs : List FacetRecord),
      outSize (rs.flatMap facetBinaryUnits) = 50 * rs.length := by
  intro rs
  induction rs with
  | nil => simp [outSize]
  | cons r rest ih =>
    simp only [List.flatMap_cons, outSize, List.map_append, List.sum_append]
    rw [show ((facetBinaryUnits r).map OutUnit.size).sum = 50 from rfl]
    simp only [outSize] at ih
    rw [ih, List.length_cons]
    ring

/-- Claim C2 (evaluation of the violating behaviour): the claim requires
`insert(point)` to return the existing id of an exactly equal point and to
assign fresh sequential ids 0, 1, 2, … to new points, as the staged
header's `m_PointsMap`/`m_LatestPointId` declarations intend.  The staged
`InsertPointIntoSet`, however, returns nothing — its whole observable
effect is the point set.  Evaluated on the insertion sequence
(0,0,0), (1,0,0), (0,0,0): the set ends holding the two distinct points
(deduplication by exact component equality does happen, via
`PointCompare`), the duplicate third insert is a no-op, and no id exists
anywhere in the result for any call to return. -/
theorem c2_insert_returns_no_id :
    runSetInserts [⟨0, 0, 0⟩, ⟨1, 0, 0⟩, ⟨0, 0, 0⟩] = [⟨0, 0, 0⟩, ⟨1, 0, 0⟩]
    ∧ insertPointIntoSet [⟨0, 0, 0⟩, ⟨1, 0, 0⟩] ⟨0, 0, 0⟩ = [⟨0, 0, 0⟩, ⟨1, 0, 0⟩]
    ∧ insertPointIntoSet [⟨0, 0, 0⟩] ⟨1, 0, 0⟩ = [⟨0, 0, 0⟩, ⟨1, 0, 0⟩] := by
  have hab : (⟨0, 0, 0⟩ : PointType) ≠ ⟨1, 0, 0⟩ := by
    intro h
    have hx := congrArg PointType.x h
    norm_num at hx
  have heq : pointEquiv (⟨0, 0, 0⟩ : PointType) ⟨0, 0, 0⟩ = true :=
    (pointEquiv_iff _ _).mpr rfl
  have hne : pointEquiv (⟨0, 0, 0⟩ : PointType) ⟨1, 0, 0⟩ = false :=
    Bool.eq_false_iff.mpr (fun h => hab ((pointEquiv_iff _ _).mp h))
  refine ⟨?_, ?_, ?_⟩ <;>
    simp [runSetInserts, List.foldl, insertPointIntoSet, heq, hne]

/-- Witness points for the writer theorems. -/
def c3Points : List PointType := [⟨0, 0, 0⟩, ⟨1, 0, 0⟩, ⟨0, 1, 0⟩]

/-- A flat buffer holding one triangle cell over points 0, 1, 2. -/
def c6Buf : List Nat := [2, 3, 0, 1, 2]

/-- The facet record the writer emits for `c6Buf` over `c3Points`. -/
def c6Rec : FacetRecord := ⟨⟨0, 0, 1⟩, ⟨0, 0, 0⟩, ⟨1, 0, 0⟩, ⟨0, 1, 0⟩⟩

/-- Claim C6: every facet record the writer emits carries the normal
`cross(p2 - p1, p0 - p1)` — the cross product of the edge vectors
`(p2 − p1)` and `(p0 − p1)` in that order; for p0=(0,0,0), p1=(1,0,0),
p2=(0,1,0) the normal is exactly (0,0,1); and the result is not normalized:
scaling the triangle scales the normal (p1=(2,0,0), p2=(0,4,0) gives
(0,0,8), squared length 64 rather than 1). -/
theorem c6_normal_cross_order :
    (∀ (points : List PointType) (n : Nat) (buf : List Nat) (r : FacetRecord),
        r ∈ emitFacets points n buf →
        r.normal = crossProductV (pointSub r.p2 r.p1) (pointSub r.p0 r.p1))
    ∧ computeNormal ⟨0, 0, 0⟩ ⟨1, 0, 0⟩ ⟨0, 1, 0⟩ = ⟨0, 0, 1⟩
    ∧ computeNormal ⟨0, 0, 0⟩ ⟨2, 0, 0⟩ ⟨0, 4, 0⟩ = ⟨0, 0, 8⟩ := by
  refine ⟨?_, by norm_num [computeNormal, pointSub, crossProductV],
    by norm_num [computeNormal, pointSub, crossProductV]⟩
  intro points n
  induction n with
  | zero =>
    intro buf r hr
    simp [emitFacets] at hr
  | succ m ih =>
    intro buf r hr
    simp only [emitFacets] at hr
    split at hr
    · rcases List.mem_cons.mp hr with hh | hmem
      · subst hh; rfl
      · exact ih _ r hmem
    · exact ih _ r hr

theorem c6_emit_concrete : emitFacets c3Points 1 c6Buf = [c6Rec] := by
  norm_num [emitFacets, c6Buf, c3Points, c6Rec, computeNormal, pointSub,
    crossProductV, TRIANGLE_CELL, POLYGON_CELL]

/-- Witness for C6: a concrete emitted facet whose normal is the
cross product in the claimed operand order. -/
theorem c6_normal_cross_order_witness :
    c6Rec.normal = crossProductV (pointSub c6Rec.p2 c6Rec.p1)
      (pointSub c6Rec.p0 c6Rec.p1) :=
  c6_normal_cross_order.1 c3Points 1 c6Buf c6Rec
    (by rw [c6_emit_concrete]; exact List.mem_singleton.mpr rfl)

/-- Claim C8: a write whose point buffer declares a point dimensionality
other than 3 fails with the unsupported-dimension error ("STL only supports
3D points") and returns the writer state unchanged — in particular no bytes
are appended to the output stream before the failure is raised. -/
theorem c8_unsupported_dimension (pointDimension numberOfPoints : Nat)
    (buffer : List ℚ) (st : WriterState) (h : pointDimension ≠ 3) :
    writePointsTyped pointDimension numberOfPoints buffer st =
      (some .unsupportedDimension, st) := by
  unfold writePointsTyped
  rw [if_pos h]

/-- Witness for C8 at dimensionality 2. -/
theorem c8_unsupported_dimension_witness :
    (2 ≠ 3)
    ∧ writePointsTyped 2 1 [0, 0] ⟨[], []⟩ =
        (some .unsupportedDimension, ⟨[], []⟩) :=
  ⟨by decide, c8_unsupported_dimension 2 1 [0, 0] ⟨[], []⟩ (by decide)⟩

/-- Claim C9: `ReadPoints` and `ReadCells` leave the caller-supplied buffer
completely unchanged for every file type and open outcome: the operations
only open and close the input stream (the `ops` traces contain stream
operations only, as their type shows) and never store into the buffer. -/
theorem c9_read_buffers_untouched (ft : FileTypeV) (openOk : Bool)
    (buffer : List ℚ) :
    (readPoints ft openOk buffer).buffer = buffer
    ∧ (readCells ft openOk buffer).buffer = buffer := by
  cases ft <;> cases openOk <;> exact ⟨rfl, rfl⟩

/-- Claim C10: `CanReadFile` accepts exactly the file names that exist and
would pass `CanWriteFile`'s extension test (last extension ".stl" or
".STL"); a nonexistent name with a valid extension is rejected for reading,
while `CanWriteFile` ignores existence entirely. -/
theorem c10_can_read_write (fileExists : List Nat → Bool) (fileName : List Nat) :
    canReadFile fileExists fileName = (fileExists fileName && canWriteFile fileName)
    ∧ canReadFile (fun _ => false) (strBytes "mesh.stl") = false
    ∧ canWriteFile (strBytes "mesh.stl") = true
    ∧ canWriteFile (strBytes "mesh.STL") = true
    ∧ canWriteFile (strBytes "mesh.txt") = false
    ∧ canReadFile (fun _ => true) (strBytes "dir/mesh.stl") = true := by
  refine ⟨?_, by decide, by decide, by decide, by decide, by decide⟩
  unfold canReadFile canWriteFile
  cases hfe : fileExists fileName
  · simp [hfe]
  · simp only [hfe, Bool.not_true, Bool.false_eq_true, if_false, Bool.true_and]

/-- A single triangle cell over points 0, 1, 2. -/
def c3Cells : List CellEntry := [⟨2, [0, 1, 2]⟩]

/-- Counterexample to claim C3 as stated: for a mesh with N = 1 qualifying
triangle the binary body is 4 + 50 bytes = 54 bytes (a 4-byte count plus
one 50-byte record), not 12 + N*50 = 62 bytes. -/
theorem c3_counterexample :
    (c3Cells.filter qualifies).length = 1
    ∧ outSize (writeCellsBinaryUnits c3Points c3Cells.length (flattenCells c3Cells)) = 54
    ∧ outSize (writeCellsBinaryUnits c3Points c3Cells.length (flattenCells c3Cells)) ≠
        12 + 1 * 50 := by
  refine ⟨by decide, by decide, by decide⟩

/-- Claim C3 (amended): for every mesh written in binary file type, the
header is exactly 80 bytes and the body is exactly 4 + N*50 bytes for N
qualifying triangles (4-byte count plus N 50-byte records).  The
hypothesis states well-formedness of the cell buffer: triangle-tagged
cells carry three vertex ids. -/
theorem c3_binary_sizes (points : List PointType) (cells : List CellEntry)
    (h : ∀ c ∈ cells, c.ctype = TRIANGLE_CELL → c.verts.length = 3) :
    outSize (writeMeshInformation .BINARY) = 80
    ∧ outSize (writeCellsBinaryUnits points cells.length (flattenCells cells)) =
        4 + 50 * (cells.filter qualifies).length := by
  constructor
  · decide
  · unfold writeCellsBinaryUnits
    rw [outSize_cons, emitFacets_flatten points cells h, outSize_facetBinary,
      List.length_map]
    rfl

/-- Witness for C3 at a concrete one-triangle mesh. -/
theorem c3_binary_sizes_witness :
    (∀ c ∈ c3Cells, c.ctype = TRIANGLE_CELL → c.verts.length = 3)
    ∧ (outSize (writeMeshInformation .BINARY) = 80
       ∧ outSize (writeCellsBinaryUnits c3Points c3Cells.length (flattenCells c3Cells)) =
           4 + 50 * (c3Cells.filter qualifies).length) :=
  ⟨by decide, c3_binary_sizes c3Points c3Cells (by decide)⟩

/-- Claim C5: a cell contributes to the written triangle count and produces
an emitted record if and only if it qualifies (tagged `TRIANGLE_CELL`, or
`POLYGON_CELL` with exactly 3 vertices); all other cells are skipped —
neither counted nor emitted — in both the binary and the ASCII writer.
Formally, over any well-formed flat cell buffer the counting pass returns
the number of qualifying cells and both writers emit exactly one record per
qualifying cell, in order. -/
theorem c5_qualifying_cells (points : List PointType) (cells : List CellEntry)
    (h : ∀ c ∈ cells, c.ctype = TRIANGLE_CELL → c.verts.length = 3) :
    countTriangles cells.length (flattenCells cells) =
        ((cells.filter qualifies).length : Int)
    ∧ emitFacets points cells.length (flattenCells cells) =
        (cells.filter qualifies).map (recordOf points)
    ∧ writeCellsBinaryUnits points cells.length (flattenCells cells) =
        .i32 ((cells.filter qualifies).length : Int) ::
          ((cells.filter qualifies).map (recordOf points)).flatMap facetBinaryUnits
    ∧ writeCellsAsciiOut points cells.length (flattenCells cells) =
        ((cells.filter qualifies).map (recordOf points)).map AsciiOut.facetBlock
          ++ [.textLine (strBytes "endsolid")] := by
  refine ⟨countTriangles_flatten cells, emitFacets_flatten points cells h, ?_, ?_⟩
  · unfold writeCellsBinaryUnits
    rw [countTriangles_flatten cells, emitFacets_flatten points cells h]
  · unfold writeCellsAsciiOut
    rw [emitFacets_flatten points cells h]

/-- A mixed cell buffer: a triangle, a line, a 3-vertex polygon, a 4-vertex
polygon and a quadrilateral; exactly two cells qualify. -/
def c5Cells : List CellEntry :=
  [⟨2, [0, 1, 2]⟩, ⟨1, [0, 1]⟩, ⟨4, [0, 1, 2]⟩, ⟨4, [0, 1, 2, 3]⟩, ⟨3, [0, 1, 2, 0]⟩]

/-- Witness for C5 at a concrete mixed cell buffer. -/
theorem c5_qualifying_cells_witness :
    (∀ c ∈ c5Cells, c.ctype = TRIANGLE_CELL → c.verts.length = 3)
    ∧ (countTriangles c5Cells.length (flattenCells c5Cells) =
          ((c5Cells.filter qualifies).length : Int)
       ∧ emitFacets c3Points c5Cells.length (flattenCells c5Cells) =
           (c5Cells.filter qualifies).map (recordOf c3Points)
       ∧ writeCellsBinaryUnits c3Points c5Cells.length (flattenCells c5Cells) =
           .i32 ((c5Cells.filter qualifies).length : Int) ::
             ((c5Cells.filter qualifies).map (recordOf c3Points)).flatMap facetBinaryUnits
       ∧ writeCellsAsciiOut c3Points c5Cells.length (flattenCells c5Cells) =
           ((c5Cells.filter qualifies).map (recordOf c3Points)).map AsciiOut.facetBlock
             ++ [.textLine (strBytes "endsolid")]) :=
  ⟨by decide, c5_qualifying_cells c3Points c5Cells (by decide)⟩

/-- A file whose first line is "solid cube". -/
def c4AsciiFile : List Nat := strBytes "solid cube\nendsolid\n"

/-- A file starting with 80 arbitrary bytes (letter X) that do not contain
"solid", followed by a 4-byte count. -/
def c4BinFile : List Nat := List.replicate 80 88 ++ [2, 0, 0, 0]

/-- Claim C4: the reader consumes the first line up to and including its
terminator and classifies the file as ASCII exactly when that line contains
the substring "solid" anywhere, BINARY otherwise; a first line "solid cube"
yields ASCII and an 80-byte header without "solid" yields BINARY. -/
theorem c4_format_detection :
    (∀ (w : Bool) (ft0 : FileTypeV) (file : List Nat),
        ft0 ≠ FileTypeV.TYPENOTAPPLICABLE →
        ((readMeshInformation w ft0 true file).fileType = .ASCII ↔
          containsSub (strBytes "solid") (getline file).1 = true))
    ∧ (readMeshInformation false .ASCII true c4AsciiFile).fileType = .ASCII
    ∧ (readMeshInformation false .ASCII true c4BinFile).fileType = .BINARY := by
  refine ⟨?_, by decide, by decide⟩
  intro w ft0 file h
  unfold readMeshInformation
  rw [if_neg (by simp [h])]
  by_cases hs : containsSub (strBytes "solid") (getline file).1 = true
  · rw [if_pos hs]
    simp [hs]
  · rw [if_neg hs]
    simp [hs]

/-- Witness for C4, instantiating the detection equivalence at the
"solid cube" file. -/
theorem c4_format_detection_witness :
    (FileTypeV.ASCII ≠ FileTypeV.TYPENOTAPPLICABLE)
    ∧ ((readMeshInformation false .ASCII true c4AsciiFile).fileType = .ASCII ↔
        containsSub (strBytes "solid") (getline c4AsciiFile).1 = true) :=
  ⟨by decide, c4_format_detection.1 false .ASCII c4AsciiFile (by decide)⟩

/-- The line `ReadStringFromAscii` is about to test: the buffered
`m_InputLine` if nonempty, else the next line of the stream. -/
def currentLineOf (st : AsciiState) : List Nat :=
  if st.inputLine.isEmpty then (getline st.stream).1 else st.inputLine

/-- An ASCII file whose fourth line starts with "foo" instead of "vertex". -/
def c7BadVertexFile : List Nat :=
  strBytes "solid ascii\nfacet normal 0 0 1\nouter loop\nfoo 0 0 0\nvertex 1 0 0\nvertex 0 1 0\nendloop\nendfacet\nendsolid\n"

/-- Counterexample to claim C7 as stated: on a file whose vertex line does
not contain "vertex", the parse fails citing line 4 but the raised error
carries no offending line text (the exception at cxx line 628 interpolates
only the line number), so not every keyword mismatch reports the offending
line text. -/
theorem c7_counterexample :
    asciiErrorOf (readMeshInformation false .ASCII true c7BadVertexFile) =
        some (.missedVertex 4)
    ∧ reportedLineText (.missedVertex 4) = none := by
  exact ⟨by decide, rfl⟩

/-- An ASCII file missing "endloop" after its three vertex lines; line 7
holds "endfacet" instead. -/
def c7MissingEndloopFile : List Nat :=
  strBytes "solid ascii\nfacet normal 0 0 1\nouter loop\nvertex 0 0 0\nvertex 1 0 0\nvertex 0 1 0\nendfacet\nendsolid\n"

/-- Claim C7 (amended): a line that does not contain the expected keyword
substring makes the parse fail with an error reporting the reader's 1-based
line counter and — for the line keywords "facet normal", "outer loop",
"endloop", "endfacet" — the offending line text, while a "vertex" keyword
mismatch reports the line number only; a file missing "endloop" after three
vertex lines fails citing the correct line number (7) and the offending
line. -/
theorem c7_parse_error_reports :
    (∀ (expected : List Nat) (st : AsciiState),
        containsSub expected (currentLineOf st) = false →
        readStringFromAscii expected st =
          .error (.missedKeyword expected st.lineNumber (currentLineOf st)))
    ∧ (∀ st : AsciiState,
        containsSub (strBytes "vertex") (readToken st.stream).1 = false →
        readPointAsAscii st = .error (.missedVertex st.lineNumber))
    ∧ asciiErrorOf (readMeshInformation false .ASCII true c7MissingEndloopFile) =
        some (.missedKeyword (strBytes "endloop") 7 (strBytes "endfacet")) := by
  refine ⟨?_, ?_, by decide⟩
  · intro expected st h
    unfold currentLineOf at h
    unfold readStringFromAscii currentLineOf
    by_cases he : st.inputLine.isEmpty
    · simp only [he, if_true] at h ⊢
      rw [if_neg (by simp [h])]
    · rw [Bool.not_eq_true] at he
      simp only [he, Bool.false_eq_true, if_false] at h ⊢
      rw [if_neg (by simp [h])]
  · intro st h
    unfold readPointAsAscii
    rw [if_neg (by simp [h])]

/-- Reader state about to read the missing "endloop" at line 7. -/
def c7St1 : AsciiState := ⟨strBytes "endfacet\nendsolid\n", [], 7⟩

/-- Reader state about to read a broken vertex line at line 4. -/
def c7St2 : AsciiState := ⟨strBytes "foo 0 0 0\n", [], 4⟩

/-- Witness for C7 at concrete reader states. -/
theorem c7_parse_error_reports_witness :
    (containsSub (strBytes "endloop") (currentLineOf c7St1) = false
     ∧ readStringFromAscii (strBytes "endloop") c7St1 =
         .error (.missedKeyword (strBytes "endloop") c7St1.lineNumber
           (currentLineOf c7St1)))
    ∧ (containsSub (strBytes "vertex") (readToken c7St2.stream).1 = false
       ∧ readPointAsAscii c7St2 = .error (.missedVertex c7St2.lineNumber)) :=
  ⟨⟨by decide, c7_parse_error_reports.1 (strBytes "endloop") c7St1 (by decide)⟩,
   ⟨by decide, c7_parse_error_reports.2.1 c7St2 (by decide)⟩⟩

/-- A binary-layout file with a newline at offset 0: bytes 1-79 are letter
X, bytes 80-83 encode the little-endian triangle count 2, and 100 zero
bytes of record data follow. Per the binary STL layout (and the claim) the
header is bytes 0-79 and the count field is bytes 80-83. -/
def c1File : List Nat :=
  10 :: (List.replicate 79 88 ++ [2, 0, 0, 0] ++ List.replicate 100 0)

/-- Claim C1 (evaluation of the violating behaviour): on `c1File`, the
reader classifies BINARY, but — the first-line `getline` having consumed
byte 0 and the stream not being repositioned to offset 0 on the non-Windows
path — it consumes bytes 1-80 as the 80-byte header (not bytes 0-79) and
records 0 cells, although the count field at offset 80 holds 2.  On the
`_WIN32` path the close-and-reopen puts the stream back at offset 0 and the
reader records the 2 cells the claim predicts. -/
theorem c1_binary_not_repositioned :
    (readMeshInformation false .ASCII true c1File).fileType = .BINARY
    ∧ binaryHeaderOf (readMeshInformation false .ASCII true c1File) =
        some ((c1File.drop 1).take 80)
    ∧ (c1File.drop 1).take 80 ≠ c1File.take 80
    ∧ binaryCellsOf (readMeshInformation false .ASCII true c1File) = some 0
    ∧ toInt32 (leVal ((c1File.drop 80).take 4)) = 2
    ∧ binaryCellsOf (readMeshInformation true .ASCII true c1File) = some 2 := by
  refine ⟨by decide, by decide, by decide, by decide, by decide, by decide⟩
